import Mathlib

/-!
Verification of the paginated fetch + aggregation pipeline of
`src/credible_users.py` (Credible-Users-By-Program).

The script has two logical components:
* `fetch_view_records` (lines 69-92): a cursor-paginated fetch of the records
  of one Airtable view, modelled here over an explicit list of scripted page
  responses (the successive results of the `requests.get` calls in the
  `while True:` loop).
* the aggregation / chart section (lines 94-130): flattened records are
  grouped with `groupby(..., dropna=False)[users].sum()`, sorted descending,
  filtered by the selected categories, and each surviving row receives a
  share (`percent`) of the selected total and a percentage label.

Machine values are modelled with `ℚ` (pandas numeric cells), field mappings
with association lists, and the `st.error` / `st.info` / `st.warning`
side effects as explicit outcome data.
-/

namespace CredibleUsers

/-- A scalar cell value of an Airtable record (`fields` entry).  `num` models
a JSON number, `str` a JSON string. -/
inductive Value : Type
  | num (q : ℚ)
  | str (s : String)
deriving DecidableEq

/-- A Record is the `fields` mapping of one raw Airtable record: field name to
value; a field that is missing from the mapping is an absent (NaN) cell. -/
abbrev Record := List (String × Value)

/-- First-match field lookup in a record, i.e. `fields.get(name)`. -/
def getField : Record → String → Option Value
  | [], _ => none
  | (k, v) :: rest, f => if k = f then some v else getField rest f

/-! ## Record Fetcher (`fetch_view_records`, lines 69-92) -/

/-- One GET request of the pagination loop: `params = {"view": view_name}`
plus, from the second page on, the `offset` continuation token. -/
structure ApiRequest : Type where
  view : String
  offset : Option String
deriving DecidableEq

/-- The scripted response to one page request.  `response st recs tok` is an
HTTP response with status `st` whose JSON body has a `records` array (each
raw record's optional `fields` sub-object) and an optional `offset`
continuation token; `transportError` models `requests.get` itself raising
(network failure / timeout), which the script does not catch. -/
inductive PageResponse : Type
  | response (status : Nat) (records : List (Option Record)) (offset : Option String)
  | transportError
deriving DecidableEq

/-- A terminal exception escaping `fetch_view_records`: `httpStatus`
from `r.raise_for_status()` (any 4xx/5xx not special-cased), `transport`
from `requests.get` raising. -/
inductive FetchErr : Type
  | httpStatus (status : Nat)
  | transport
deriving DecidableEq

/-- The observable outcome of one `fetch_view_records` call:
* `result`: the returned DataFrame rows (`Except.ok`) or the raised
  exception (`Except.error`);
* `errorDisplayed`: the status for which `st.error` was called, if any;
* `requests`: the GET requests issued, in order. -/
structure FetchOutcome : Type where
  result : Except FetchErr (List Record)
  errorDisplayed : Option Nat
  requests : List ApiRequest

/-- The `while True:` loop of `fetch_view_records`.  `responses` is the
stream of scripted responses still to be consumed (the i-th iteration's
`requests.get` result); `off` is the current `offset` entry of `params`;
`out` is the accumulator `out`; `reqs` the trace of requests issued so far.
`none` means the scripted stream was exhausted while the loop still wanted
another page — the run did not finish within the scripted responses.

Mirrors lines 74-92: status 401/403/404 call `st.error` and return an empty
DataFrame; `raise_for_status` raises on any other 4xx/5xx; otherwise
`out.extend(records)`, and the loop repeats exactly when the body has an
`offset` key, else it breaks and returns
`pd.json_normalize([rec.get("fields", {}) for rec in out])`. -/
def fetchLoop (view : String) :
    List PageResponse → Option String → List (Option Record) → List ApiRequest →
    Option FetchOutcome
  | [], _, _, _ => none
  | PageResponse.transportError :: _, off, _, reqs =>
      some ⟨Except.error FetchErr.transport, none, reqs ++ [⟨view, off⟩]⟩
  | PageResponse.response st recs tok :: rest, off, out, reqs =>
      if st = 401 then some ⟨Except.ok [], some 401, reqs ++ [⟨view, off⟩]⟩
      else if st = 403 then some ⟨Except.ok [], some 403, reqs ++ [⟨view, off⟩]⟩
      else if st = 404 then some ⟨Except.ok [], some 404, reqs ++ [⟨view, off⟩]⟩
      else if 400 ≤ st ∧ st < 600 then
        some ⟨Except.error (FetchErr.httpStatus st), none, reqs ++ [⟨view, off⟩]⟩
      else
        match tok with
        | some t => fetchLoop view rest (some t) (out ++ recs) (reqs ++ [⟨view, off⟩])
        | none =>
            some ⟨Except.ok ((out ++ recs).map (fun f => f.getD [])), none,
                  reqs ++ [⟨view, off⟩]⟩

/-- `fetch_view_records(pat, base_id, table, view_name)`, run against the
scripted response stream `responses`.  The credential / base / table
arguments only shape the URL and headers of the outbound calls, which the
response stream abstracts; the first request carries no `offset`. -/
def fetch_view_records (view_name : String) (responses : List PageResponse) :
    Option FetchOutcome :=
  fetchLoop view_name responses none [] []

/-- A successful (status 200) page carrying raw records and a continuation
token `t` — a non-final page of a paginated run. -/
def tokenPage (p : List (Option Record) × String) : PageResponse :=
  PageResponse.response 200 p.1 (some p.2)

/-- One raw record used in the concrete fetch runs. -/
def sampleRec (name : String) (n : ℚ) : Record :=
  [("Program Name", Value.str name), ("Credible Users", Value.num n)]

/-- A concrete run: page 1 succeeds with two records and a continuation
token, the second page request is rejected with 401 Unauthorized. -/
def c2responses : List PageResponse :=
  [PageResponse.response 200 [some (sampleRec "A" 10), some (sampleRec "B" 5)] (some "tok1"),
   PageResponse.response 401 [] none]

/-- The outcome of that run. -/
def c2outcome : FetchOutcome :=
  ⟨Except.ok [], some 401,
   [⟨"Grant View", none⟩, ⟨"Grant View", some "tok1"⟩]⟩

/-- A page response that always carries a continuation token. -/
def tokenOnlyPage (recs : List (Option Record)) (t : String) : PageResponse :=
  PageResponse.response 200 recs (some t)

/-! ## Aggregator (lines 94-130)

The fetched DataFrame is modelled as the list of flattened records; its
column set is the union of the records' field names (`pd.json_normalize`). -/

/-- Natural number denoted by a digit list, most significant first. -/
def natOfDigits (l : List Char) : Nat :=
  l.foldl (fun acc c => acc * 10 + (c.toNat - 48)) 0

/-- Numeric parse of a plain decimal literal (optional sign, integer digits,
optional fractional digits), the fragment of `pd.to_numeric(errors="coerce")`
exercised by string cells here; any other string coerces to NaN (`none`). -/
def parseNumCore (l : List Char) : Option ℚ :=
  match l.span Char.isDigit with
  | (ds, rest) =>
    if ds = [] then none
    else
      match rest with
      | [] => some (natOfDigits ds : ℚ)
      | '.' :: fs =>
          if fs = [] then some (natOfDigits ds : ℚ)
          else if fs.all Char.isDigit then
            some ((natOfDigits ds : ℚ) + (natOfDigits fs : ℚ) / 10 ^ fs.length)
          else none
      | _ => none

/-- String-to-number coercion used on the users column. -/
def parseNum (s : String) : Option ℚ :=
  match s.data with
  | [] => none
  | c :: cs =>
      if c = '-' then (parseNumCore cs).map Neg.neg
      else if c = '+' then parseNumCore cs
      else parseNumCore (c :: cs)

/-- The numeric users cell of one record after
`pd.to_numeric(dfx[USERS_FIELD], errors="coerce").fillna(0)` (line 103):
numbers pass through, numeric strings parse, anything else — a non-numeric
string or an absent field — becomes NaN and then 0. -/
def usersOf (usersField : String) (r : Record) : ℚ :=
  match getField r usersField with
  | some (Value.num q) => q
  | some (Value.str s) => (parseNum s).getD 0
  | none => 0

/-- A `groupby` key of the program column: `none` is the NaN key of records
whose category field is absent (kept by `dropna=False`). -/
abbrev Key := Option Value

/-- The two-column frame `dfx` of line 102-103: per record, the raw program
cell and the coerced users number. -/
def dfx_rows (df : List Record) (programField usersField : String) :
    List (Key × ℚ) :=
  df.map (fun r => (getField r programField, usersOf usersField r))

/-- Lexicographic (code-point) order on strings as Python compares them. -/
def charListLe : List Char → List Char → Bool
  | [], _ => true
  | _ :: _, [] => false
  | a :: as, b :: bs =>
      if a.toNat < b.toNat then true
      else if b.toNat < a.toNat then false
      else charListLe as bs

/-- Order on cell values used when `groupby(sort=True)` sorts the group
keys: numbers by value, strings lexicographically.  (pandas raises on a
mixed-type object key column; the model totalises by putting numbers before
strings.) -/
def valueLe : Value → Value → Bool
  | Value.num a, Value.num b => decide (a ≤ b)
  | Value.str a, Value.str b => charListLe a.data b.data
  | Value.num _, Value.str _ => true
  | Value.str _, Value.num _ => false

/-- Key order of `groupby(..., dropna=False, sort=True)`: values ascending,
the NaN bucket last. -/
def keyLe : Key → Key → Bool
  | none, none => true
  | none, some _ => false
  | some _, none => true
  | some a, some b => valueLe a b

/-- Insertion into a key list sorted ascending by `keyLe`. -/
def insertKeyAsc (k : Key) : List Key → List Key
  | [] => [k]
  | y :: ys => if keyLe k y then k :: y :: ys else y :: insertKeyAsc k ys

/-- The ascending key ordering `groupby(sort=True)` applies to the distinct
group keys. -/
def sortKeysAsc (l : List Key) : List Key :=
  l.foldr insertKeyAsc []

/-- The distinct program keys of the frame, ordered as `groupby` emits the
groups: the distinct keys sorted ascending, NaN last. -/
def groupKeys (df : List Record) (programField usersField : String) : List Key :=
  sortKeysAsc ((dfx_rows df programField usersField).map Prod.fst).dedup

/-- Per-group sum of the users column (`groupby(...)[USERS_FIELD].sum()`). -/
def groupSum (df : List Record) (programField usersField : String) (k : Key) : ℚ :=
  (((dfx_rows df programField usersField).filter
      (fun p => decide (p.1 = k))).map Prod.snd).sum

/-- One row of `chart_df`: a program key and its summed users. -/
structure ChartRow : Type where
  program : Key
  users : ℚ
deriving DecidableEq

/-- The grouped frame before the value sort: one row per distinct key, in
the order the grouping produced them. -/
def grouped_rows (df : List Record) (programField usersField : String) :
    List ChartRow :=
  (groupKeys df programField usersField).map
    (fun k => ⟨k, groupSum df programField usersField k⟩)

/-- Stable descending insertion by summed users: a row is placed before the
first row whose sum does not exceed it, so earlier rows win ties. -/
def insertRowDesc (x : ChartRow) : List ChartRow → List ChartRow
  | [] => [x]
  | y :: ys => if y.users ≤ x.users then x :: y :: ys else y :: insertRowDesc x ys

/-- `sort_values("users", ascending=False)` (line 110), modelled as a
descending insertion sort.  The model's sort happens to be stable, but
pandas' default `kind="quicksort"` is documented as unstable (numpy's
introsort is only incidentally stable below its small-slice insertion-sort
threshold), so the program guarantees no tie order; the theorems below
therefore use only membership and multiset-level consequences of this
definition, never the model's tie order. -/
def sort_values_desc (l : List ChartRow) : List ChartRow :=
  l.foldr insertRowDesc []

/-- `chart_df` (lines 105-111): group by program (missing key kept as its own
bucket), sum users per group, sort by summed users descending. -/
def chart_df (df : List Record) (programField usersField : String) :
    List ChartRow :=
  sort_values_desc (grouped_rows df programField usersField)

/-- The column set of the normalized DataFrame: every field name occurring
in some record. -/
def columns (df : List Record) : List String :=
  (df.map (fun r => r.map Prod.fst)).flatten.dedup

/-- `filtered` (line 123): the chart rows whose program key is among the
selected ones (`chart_df["program"].isin(selected)`). -/
def filtered_rows (df : List Record) (programField usersField : String)
    (selected : List Key) : List ChartRow :=
  (chart_df df programField usersField).filter
    (fun row => decide (row.program ∈ selected))

/-- `total` (line 124): summed users of the selected rows — the
`totalIncluded` of the spec. -/
def total_included (df : List Record) (programField usersField : String)
    (selected : List Key) : ℚ :=
  ((filtered_rows df programField usersField selected).map ChartRow.users).sum

/-- Round to the nearest integer, ties to even — numpy's rounding, used by
`.round(1)` after scaling by 10. -/
def roundHalfEven (q : ℚ) : ℤ :=
  if q - ⌊q⌋ < 1 / 2 then ⌊q⌋
  else if 1 / 2 < q - ⌊q⌋ then ⌊q⌋ + 1
  else if ⌊q⌋ % 2 = 0 then ⌊q⌋ else ⌊q⌋ + 1

/-- Decimal rendering of `z` tenths, as `str()` prints a one-decimal float:
`1000 ↦ "100.0"`, `-35 ↦ "-3.5"`. -/
def tenthsToString (z : ℤ) : String :=
  let n := z.natAbs
  let s := toString (n / 10) ++ "." ++ toString (n % 10)
  if z < 0 then "-" ++ s else s

/-- `percent_label` of one row (line 130): the share as a percentage,
rounded to one decimal place and suffixed with `%`. -/
def percentLabel (share : ℚ) : String :=
  tenthsToString (roundHalfEven (share * 100 * 10)) ++ "%"

/-- One chart-ready row: program, summed users, share of the selected total
(`percent`, line 129) and its label (line 130). -/
structure AggRow : Type where
  program : Key
  users : ℚ
  percent : ℚ
  label : String
deriving DecidableEq

/-- The rows handed to the chart when the selected total is nonzero. -/
def agg_rows (df : List Record) (programField usersField : String)
    (selected : List Key) : List AggRow :=
  (filtered_rows df programField usersField selected).map
    (fun row =>
      ⟨row.program, row.users,
       row.users / total_included df programField usersField selected,
       percentLabel (row.users / total_included df programField usersField selected)⟩)

/-- The user-visible outcome of the aggregation section:
* `emptyInfo` — `df.empty` (line 97): no rows fetched, or no record carries
  any field, "This view returned no rows (or failed to fetch)";
* `missingField cols` — line 99-100 warning, program or users column absent;
* `noneSelected` — empty multiselect, `st.stop()` (lines 119-121);
* `zeroTotal` — selected programs sum to zero users, `st.stop()`
  (lines 125-127);
* `chart rows totalIncluded` — the rendered chart data (lines 129-151). -/
inductive AggOutcome : Type
  | emptyInfo
  | missingField (cols : List String)
  | noneSelected
  | zeroTotal
  | chart (rows : List AggRow) (totalIncluded : ℚ)
deriving DecidableEq

/-- The aggregation / display logic of lines 94-130 applied to the fetched
records `df`, the two configured field names and the multiselect state.
`df.empty` holds when either axis of the normalized frame is empty: no
records, or no record with any field. -/
def render_chart (df : List Record) (programField usersField : String)
    (selected : List Key) : AggOutcome :=
  if df = [] ∨ columns df = [] then AggOutcome.emptyInfo
  else if programField ∉ columns df ∨ usersField ∉ columns df then
    AggOutcome.missingField (columns df)
  else if selected = [] then AggOutcome.noneSelected
  else if total_included df programField usersField selected = 0 then
    AggOutcome.zeroTotal
  else
    AggOutcome.chart (agg_rows df programField usersField selected)
      (total_included df programField usersField selected)

/-- The three-record example of the spec:
`[{P:"A",U:"10"},{P:"B",U:"5"},{P:"A",U:"3"}]`. -/
def specRecords : List Record :=
  [[("P", Value.str "A"), ("U", Value.str "10")],
   [("P", Value.str "B"), ("U", Value.str "5")],
   [("P", Value.str "A"), ("U", Value.str "3")]]

/-- The record with the non-numeric users cell `U:"abc"` of the spec's
example. -/
def nonNumericRec : Record := [("P", Value.str "C"), ("U", Value.str "abc")]

/-- A two-record set whose first record has no program cell. -/
def missingCatRecords : List Record :=
  [[("U", Value.num 5)], [("P", Value.str "A"), ("U", Value.num 3)]]

/-- Records whose only `"B"` row has users `"0"`: filtering to `{"B"}` sums
to zero. -/
def zeroRecords : List Record :=
  [[("P", Value.str "A"), ("U", Value.str "10")],
   [("P", Value.str "B"), ("U", Value.str "0")]]

/-- The one-column record set used to witness the missing-field warning. -/
def onlyProgramRecords : List Record := [[("P", Value.str "A")]]

/-- Seventeen distinct programs, each with one credible user: every grouped
row sums to 1, so all seventeen rows are tied when they reach the value
sort — one more row than numpy's insertion-sort threshold covers. -/
def tiedRecords : List Record :=
  [[("P", Value.str "A"), ("U", Value.num 1)],
   [("P", Value.str "B"), ("U", Value.num 1)],
   [("P", Value.str "C"), ("U", Value.num 1)],
   [("P", Value.str "D"), ("U", Value.num 1)],
   [("P", Value.str "E"), ("U", Value.num 1)],
   [("P", Value.str "F"), ("U", Value.num 1)],
   [("P", Value.str "G"), ("U", Value.num 1)],
   [("P", Value.str "H"), ("U", Value.num 1)],
   [("P", Value.str "I"), ("U", Value.num 1)],
   [("P", Value.str "J"), ("U", Value.num 1)],
   [("P", Value.str "K"), ("U", Value.num 1)],
   [("P", Value.str "L"), ("U", Value.num 1)],
   [("P", Value.str "M"), ("U", Value.num 1)],
   [("P", Value.str "N"), ("U", Value.num 1)],
   [("P", Value.str "O"), ("U", Value.num 1)],
   [("P", Value.str "Q"), ("U", Value.num 1)],
   [("P", Value.str "R"), ("U", Value.num 1)]]

/-- Core pagination lemma: running the loop against any number of token
bearing pages followed by a token-free page appends every page's records in
order, stops at the token-free page (leaving `extra` untouched), and issues
one request per consumed page, each carrying the previous page's token. -/
theorem fetchLoop_pages (front : List (List (Option Record) × String))
    (last : List (Option Record)) (extra : List PageResponse) (view : String) :
    ∀ (off : Option String) (out : List (Option Record)) (reqs : List ApiRequest),
    fetchLoop view (front.map tokenPage ++ PageResponse.response 200 last none :: extra)
        off out reqs =
      some ⟨Except.ok (((out ++ (front.map Prod.fst).flatten) ++ last).map (fun f => f.getD [])),
            none,
            reqs ++ (⟨view, off⟩ :: front.map (fun p => ⟨view, some p.2⟩))⟩ := by
  induction front with
  | nil =>
      intro off out reqs
      simp [fetchLoop]
  | cons p rest ih =>
      intro off out reqs
      simp only [List.map_cons, List.cons_append, tokenPage, fetchLoop]
      norm_num
      rw [ih (some p.2) (out ++ p.1) (reqs ++ [ApiRequest.mk view off])]
      simp [List.append_assoc, Function.comp]

/-- Claim C1: `fetch_view_records` issues a request for the named view; while
a response carries a continuation token it repeats the request with that
token attached, appending each page's records in response order into one
RecordSet, and it stops at the first response that omits the token — a
token-free first response (`front = []`) yields exactly that page's records
with a single request made. -/
theorem fetch_paginates_until_token_omitted
    (front : List (List (Option Record) × String)) (last : List (Option Record))
    (extra : List PageResponse) (view : String) :
    fetch_view_records view
        (front.map tokenPage ++ PageResponse.response 200 last none :: extra) =
      some ⟨Except.ok (((front.map Prod.fst).flatten ++ last).map (fun f => f.getD [])),
            none,
            ⟨view, none⟩ :: front.map (fun p => ⟨view, some p.2⟩)⟩ := by
  unfold fetch_view_records
  rw [fetchLoop_pages]
  simp

/-- If a run of the loop displays an error (`st.error`), the displayed status
is 401, 403 or 404 and the value returned to the caller is an ordinary empty
DataFrame (`Except.ok []`), whatever records had been accumulated so far. -/
theorem fetchLoop_errorDisplayed (responses : List PageResponse) (view : String) :
    ∀ (off : Option String) (out : List (Option Record)) (reqs : List ApiRequest)
      (o : FetchOutcome),
    fetchLoop view responses off out reqs = some o →
    o.errorDisplayed.isSome →
    o.result = Except.ok [] ∧
      (o.errorDisplayed = some 401 ∨ o.errorDisplayed = some 403 ∨
        o.errorDisplayed = some 404) := by
  induction responses with
  | nil =>
      intro off out reqs o h
      simp [fetchLoop] at h
  | cons resp rest ih =>
      intro off out reqs o h hd
      match resp with
      | PageResponse.transportError =>
          simp [fetchLoop] at h
          rw [← h] at hd
          simp at hd
      | PageResponse.response st recs tok =>
          by_cases h401 : st = 401
          · subst h401
            simp [fetchLoop] at h
            rw [← h]
            simp
          · by_cases h403 : st = 403
            · subst h403
              simp [fetchLoop] at h
              rw [← h]
              simp
            · by_cases h404 : st = 404
              · subst h404
                simp [fetchLoop] at h
                rw [← h]
                simp
              · by_cases hr : 400 ≤ st ∧ st < 600
                · simp [fetchLoop, h401, h403, h404, hr] at h
                  rw [← h] at hd
                  simp at hd
                · match tok with
                  | some t =>
                      simp [fetchLoop, h401, h403, h404, hr] at h
                      exact ih (some t) (out ++ recs) (reqs ++ [⟨view, off⟩]) o h hd
                  | none =>
                      simp [fetchLoop, h401, h403, h404, hr] at h
                      rw [← h] at hd
                      simp at hd

/-- Claim C2 (amended): whenever a finished `fetch_view_records` run has
displayed an error message, the offending status was 401, 403 or 404 and the
call returned an empty RecordSet as an ordinary value (`Except.ok []`) —
earlier pages are discarded, and the caller receives no terminal failure,
the empty result being indistinguishable from an empty view. -/
theorem fetch_error_downgraded_to_empty (view : String)
    (responses : List PageResponse) (o : FetchOutcome)
    (h : fetch_view_records view responses = some o)
    (hd : o.errorDisplayed.isSome) :
    o.result = Except.ok [] ∧
      (o.errorDisplayed = some 401 ∨ o.errorDisplayed = some 403 ∨
        o.errorDisplayed = some 404) :=
  fetchLoop_errorDisplayed responses view none [] [] o h hd

/-- Claim C2, counterexample: a fetch whose second page request fails with
401 Unauthorized does not surface a terminal failure — it returns the value
`Except.ok []`, silently discarding the two records of page 1; the claim that
such a fetch "aborts and surfaces a terminal failure to the caller" and that
"no error is downgraded to an empty result" is false on this input. -/
theorem fetch_unauthorized_returns_ok_empty :
    fetch_view_records "Grant View" c2responses = some c2outcome ∧
      c2outcome.result = Except.ok [] := by
  constructor
  · rfl
  · rfl

/-- Witness for `fetch_error_downgraded_to_empty` at the concrete 401 run. -/
theorem fetch_error_downgraded_to_empty_witness :
    (fetch_view_records "Grant View" c2responses = some c2outcome ∧
        c2outcome.errorDisplayed.isSome = true) ∧
      (c2outcome.result = Except.ok [] ∧
        (c2outcome.errorDisplayed = some 401 ∨ c2outcome.errorDisplayed = some 403 ∨
          c2outcome.errorDisplayed = some 404)) :=
  ⟨⟨rfl, rfl⟩,
   fetch_error_downgraded_to_empty "Grant View" c2responses c2outcome rfl rfl⟩

/-- Against token-bearing pages only, the loop consumes every scripted page
and is still running (no result, no error signalled) when the script runs
out — for any number of pages. -/
theorem fetchLoop_all_tokens_never_stops (recs : List (Option Record)) (t : String)
    (view : String) :
    ∀ (n : Nat) (off : Option String) (out : List (Option Record))
      (reqs : List ApiRequest),
    fetchLoop view (List.replicate n (tokenOnlyPage recs t)) off out reqs = none := by
  intro n
  induction n with
  | zero => intro off out reqs; simp [fetchLoop]
  | succ m ih =>
      intro off out reqs
      simp only [List.replicate_succ, tokenOnlyPage, fetchLoop]
      norm_num
      exact ih (some t) (out ++ recs) (reqs ++ [⟨view, off⟩])

/-- Claim C4 (amended): the pagination loop of `fetch_view_records` imposes
no maximum page count and has no `TooManyPages` signal; against a source
that never omits the continuation token it iterates unboundedly — for every
number `n` of scripted token-bearing pages the run consumes all `n` pages
and is still awaiting another one. -/
theorem fetch_no_page_cap (view t : String) (recs : List (Option Record)) (n : Nat) :
    fetch_view_records view (List.replicate n (tokenOnlyPage recs t)) = none :=
  fetchLoop_all_tokens_never_stops recs t view n none [] []

/-- Claim C4, counterexample: after 500 pages that all carry a continuation
token the loop has not stopped and has signalled nothing — there is no
injected maximum page count and no `TooManyPages` error in the code, so the
claim that the loop "stops after an injected maximum page count and signals
TooManyPages" is false. -/
theorem fetch_runs_past_500_pages :
    fetch_view_records "Grant View" (List.replicate 500 (tokenOnlyPage [] "tok")) =
      none :=
  fetchLoop_all_tokens_never_stops [] "tok" "Grant View" 500 none [] []

/-! ## Sorting lemmas -/

/-- Membership through descending insertion. -/
theorem mem_insertRowDesc {x y : ChartRow} {l : List ChartRow} :
    x ∈ insertRowDesc y l ↔ x = y ∨ x ∈ l := by
  induction l with
  | nil => simp [insertRowDesc]
  | cons z zs ih =>
      by_cases h : z.users ≤ y.users
      · simp [insertRowDesc, h]
      · simp only [insertRowDesc, if_neg h, List.mem_cons, ih]
        tauto

/-- Membership through the descending sort. -/
theorem mem_sort_values_desc {x : ChartRow} {l : List ChartRow} :
    x ∈ sort_values_desc l ↔ x ∈ l := by
  induction l with
  | nil => simp [sort_values_desc]
  | cons y ys ih =>
      show x ∈ insertRowDesc y (sort_values_desc ys) ↔ _
      rw [mem_insertRowDesc, ih]
      simp

/-- Evaluation of the grouping pipeline on the spec's example: `"A"` sums to
`10 + 3 = 13`, `"B"` to `5`, and the descending sort puts `"A"` first. -/
theorem chart_df_specRecords_eval :
    chart_df specRecords "P" "U" =
      [⟨some (Value.str "A"), 13⟩, ⟨some (Value.str "B"), 5⟩] := by
  simp [chart_df, grouped_rows, groupKeys, dfx_rows, specRecords, getField, usersOf,
        parseNum, parseNumCore, natOfDigits, sortKeysAsc, insertKeyAsc, keyLe, valueLe,
        charListLe, groupSum, sort_values_desc, insertRowDesc]
  norm_num

/-- Claim C3 (code-bug evaluation at the failing input): seventeen distinct
programs with one users each reach line 110's `sort_values` as seventeen
rows all tied on the summed value — past numpy's small-slice insertion-sort
regime, where pandas' default `kind="quicksort"` gives no tie-order
guarantee, although the spec demands a stable sort.  The statement is
order-insensitive: it only records that every one of the seventeen grouped
rows carries the sum 1. -/
theorem chart_df_seventeen_tied_groups :
    (chart_df tiedRecords "P" "U").map ChartRow.users =
      List.replicate 17 (1 : ℚ) := by
  simp [chart_df, grouped_rows, groupKeys, dfx_rows, tiedRecords, getField, usersOf,
        sortKeysAsc, insertKeyAsc, keyLe, valueLe, charListLe, groupSum,
        sort_values_desc, insertRowDesc, List.replicate]

/-! ## Field and column lemmas -/

/-- A field lookup fails exactly when the field name is not among the
record's keys. -/
theorem getField_eq_none_iff (r : Record) (f : String) :
    getField r f = none ↔ f ∉ r.map Prod.fst := by
  induction r with
  | nil => simp [getField]
  | cons kv rest ih =>
      by_cases h : kv.1 = f
      · simp [getField, h]
      · simp only [getField]
        rw [if_neg h]
        simp [ih, h]
        tauto

/-- A name is a column of the normalized frame exactly when some record
carries that field. -/
theorem mem_columns_iff (df : List Record) (f : String) :
    f ∈ columns df ↔ ∃ r ∈ df, getField r f ≠ none := by
  unfold columns
  rw [List.mem_dedup, List.mem_flatten]
  constructor
  · rintro ⟨cs, hcs, hf⟩
    rcases List.mem_map.mp hcs with ⟨r, hr, rfl⟩
    exact ⟨r, hr, by simpa [getField_eq_none_iff] using hf⟩
  · rintro ⟨r, hr, hf⟩
    exact ⟨r.map Prod.fst, List.mem_map.mpr ⟨r, hr, rfl⟩,
           by simpa [getField_eq_none_iff] using hf⟩

/-- Membership through ascending key insertion. -/
theorem mem_insertKeyAsc {k j : Key} {l : List Key} :
    k ∈ insertKeyAsc j l ↔ k = j ∨ k ∈ l := by
  induction l with
  | nil => simp [insertKeyAsc]
  | cons y ys ih =>
      by_cases h : keyLe j y
      · simp [insertKeyAsc, h]
      · simp only [insertKeyAsc, if_neg h, List.mem_cons, ih]
        tauto

/-- Membership through the ascending key sort. -/
theorem mem_sortKeysAsc {k : Key} {l : List Key} :
    k ∈ sortKeysAsc l ↔ k ∈ l := by
  induction l with
  | nil => simp [sortKeysAsc]
  | cons y ys ih =>
      show k ∈ insertKeyAsc y (sortKeysAsc ys) ↔ _
      rw [mem_insertKeyAsc, ih]
      simp

/-- The per-group sum is the sum of the coerced users cells over the records
whose program cell is the group's key. -/
theorem groupSum_eq_sum_over_records (df : List Record)
    (programField usersField : String) (k : Key) :
    groupSum df programField usersField k =
      ((df.filter (fun r => decide (getField r programField = k))).map
        (usersOf usersField)).sum := by
  unfold groupSum dfx_rows
  rw [List.filter_map, List.map_map]
  rfl

/-- Claim C5: a users cell that is missing or a non-numeric string coerces
to 0 — it contributes exactly 0 to its group's sum (deleting the record from
anywhere in the RecordSet changes no group's sum), and the coercion is
total: no error is signalled for such an entry. -/
theorem missing_or_nonnumeric_value_contributes_zero
    (programField usersField : String) (r : Record) (df₁ df₂ : List Record) (k : Key)
    (h : getField r usersField = none ∨
      ∃ s, getField r usersField = some (Value.str s) ∧ parseNum s = none) :
    usersOf usersField r = 0 ∧
      groupSum (df₁ ++ r :: df₂) programField usersField k =
        groupSum (df₁ ++ df₂) programField usersField k := by
  have h0 : usersOf usersField r = 0 := by
    rcases h with h | ⟨s, hs, hps⟩
    · simp [usersOf, h]
    · simp [usersOf, hs, hps]
  refine ⟨h0, ?_⟩
  rw [groupSum_eq_sum_over_records, groupSum_eq_sum_over_records]
  rw [List.filter_append, List.filter_append, List.filter_cons]
  by_cases hk : getField r programField = k
  · simp [hk, h0]
  · simp [hk]

/-- Witness for `missing_or_nonnumeric_value_contributes_zero`: the record
`{P:"C", U:"abc"}` coerces to 0 and leaves the sum of its group unchanged
when inserted between the two example records. -/
theorem missing_or_nonnumeric_value_contributes_zero_witness :
    (getField nonNumericRec "U" = some (Value.str "abc") ∧ parseNum "abc" = none) ∧
      (usersOf "U" nonNumericRec = 0 ∧
        groupSum ([[("P", Value.str "A"), ("U", Value.str "10")]] ++
            nonNumericRec :: [[("P", Value.str "B"), ("U", Value.str "5")]])
            "P" "U" (some (Value.str "C")) =
          groupSum ([[("P", Value.str "A"), ("U", Value.str "10")]] ++
            [[("P", Value.str "B"), ("U", Value.str "5")]]) "P" "U"
            (some (Value.str "C"))) :=
  ⟨⟨rfl, rfl⟩,
   missing_or_nonnumeric_value_contributes_zero "P" "U" nonNumericRec
     [[("P", Value.str "A"), ("U", Value.str "10")]]
     [[("P", Value.str "B"), ("U", Value.str "5")]]
     (some (Value.str "C")) (Or.inr ⟨"abc", rfl, rfl⟩)⟩

/-- Claim C6: a record whose program cell is missing is not dropped:
`dropna=False` groups it into the NaN bucket, which appears among the
grouped rows of `chart_df` carrying the sum of the users cells of exactly
the records with a missing program cell. -/
theorem missing_category_forms_own_bucket (df : List Record)
    (programField usersField : String) (r : Record)
    (hr : r ∈ df) (h : getField r programField = none) :
    (⟨none, ((df.filter (fun x => decide (getField x programField = none))).map
        (usersOf usersField)).sum⟩ : ChartRow) ∈
      chart_df df programField usersField := by
  rw [← groupSum_eq_sum_over_records]
  unfold chart_df
  rw [mem_sort_values_desc]
  unfold grouped_rows
  apply List.mem_map.mpr
  refine ⟨none, ?_, rfl⟩
  unfold groupKeys
  rw [mem_sortKeysAsc, List.mem_dedup]
  unfold dfx_rows
  rw [List.map_map]
  exact List.mem_map.mpr ⟨r, hr, by simp [h]⟩

/-- Witness for `missing_category_forms_own_bucket`: the record with no
`P` field lands in the NaN bucket of the chart rows, with its users value. -/
theorem missing_category_forms_own_bucket_witness :
    ([("U", Value.num 5)] ∈ missingCatRecords ∧
        getField [("U", Value.num 5)] "P" = none) ∧
      (⟨none, ((missingCatRecords.filter
          (fun x => decide (getField x "P" = none))).map (usersOf "U")).sum⟩ :
            ChartRow) ∈
        chart_df missingCatRecords "P" "U" :=
  ⟨⟨by simp [missingCatRecords], rfl⟩,
   missing_category_forms_own_bucket missingCatRecords "P" "U"
     [("U", Value.num 5)] (by simp [missingCatRecords]) rfl⟩

/-! ## Branch behaviour of the display logic -/

/-- Once both configured columns exist and something is selected, the
display logic reaches the total test: zero total stops, nonzero total
charts. -/
theorem render_chart_branches (df : List Record) (programField usersField : String)
    (sel : List Key) (hP : programField ∈ columns df) (hU : usersField ∈ columns df)
    (hsel : sel ≠ []) :
    render_chart df programField usersField sel =
      if total_included df programField usersField sel = 0 then AggOutcome.zeroTotal
      else
        AggOutcome.chart (agg_rows df programField usersField sel)
          (total_included df programField usersField sel) := by
  have hc : columns df ≠ [] := List.ne_nil_of_mem hP
  have hd : df ≠ [] := fun h => hc (by rw [h]; rfl)
  unfold render_chart
  rw [if_neg (by simp [hd, hc]), if_neg (by simp [hP, hU]), if_neg hsel]

/-- Claim C7: when the rows surviving the selection filter sum to zero, the
logic yields the zero-total state — the run stops with an informational
message before any share is computed, so no division happens; this is an
ordinary outcome, not an error. -/
theorem zero_total_is_valid_outcome (df : List Record)
    (programField usersField : String) (sel : List Key)
    (hP : programField ∈ columns df) (hU : usersField ∈ columns df)
    (hsel : sel ≠ []) (h0 : total_included df programField usersField sel = 0) :
    render_chart df programField usersField sel = AggOutcome.zeroTotal := by
  rw [render_chart_branches df programField usersField sel hP hU hsel, if_pos h0]

/-- The selection `{"B"}` of `zeroRecords` has a zero included total. -/
theorem total_included_zeroRecords_eval :
    total_included zeroRecords "P" "U" [some (Value.str "B")] = 0 := by
  simp [total_included, filtered_rows, chart_df, grouped_rows, groupKeys, dfx_rows,
        zeroRecords, getField, usersOf, parseNum, parseNumCore, natOfDigits,
        sortKeysAsc, insertKeyAsc, keyLe, valueLe, charListLe, groupSum,
        sort_values_desc, insertRowDesc]

/-- Witness for `zero_total_is_valid_outcome`: filtering `zeroRecords` to
the category `{"B"}` yields the zero-total state. -/
theorem zero_total_is_valid_outcome_witness :
    ("P" ∈ columns zeroRecords ∧ "U" ∈ columns zeroRecords ∧
        ([some (Value.str "B")] : List Key) ≠ [] ∧
        total_included zeroRecords "P" "U" [some (Value.str "B")] = 0) ∧
      render_chart zeroRecords "P" "U" [some (Value.str "B")] =
        AggOutcome.zeroTotal :=
  ⟨⟨by decide, by decide, by decide, total_included_zeroRecords_eval⟩,
   zero_total_is_valid_outcome zeroRecords "P" "U" [some (Value.str "B")]
     (by decide) (by decide) (by decide) total_included_zeroRecords_eval⟩

/-! ## Shares and labels -/

/-- Filtering the example's chart rows to the selection `{"B"}`. -/
theorem filtered_rows_specB_eval :
    filtered_rows specRecords "P" "U" [some (Value.str "B")] =
      [⟨some (Value.str "B"), 5⟩] := by
  unfold filtered_rows
  rw [chart_df_specRecords_eval]
  simp

/-- The included total of that selection is `5`. -/
theorem total_included_specB_eval :
    total_included specRecords "P" "U" [some (Value.str "B")] = 5 := by
  unfold total_included
  rw [filtered_rows_specB_eval]
  simp

/-- A share of `1` is labelled `"100.0%"`. -/
theorem percentLabel_one_eval : percentLabel 1 = "100.0%" := by
  have h : (1 : ℚ) * 100 * 10 = 1000 := by norm_num
  rw [percentLabel, h]
  have h2 : roundHalfEven 1000 = 1000 := by
    rw [roundHalfEven]
    norm_num
  rw [h2]
  rfl

/-- The chart-ready rows of the `{"B"}` selection: one row, share `1`,
label `"100.0%"`. -/
theorem agg_rows_specB_eval :
    agg_rows specRecords "P" "U" [some (Value.str "B")] =
      [⟨some (Value.str "B"), 5, 1, "100.0%"⟩] := by
  unfold agg_rows
  rw [filtered_rows_specB_eval]
  simp only [total_included_specB_eval]
  simp
  norm_num [percentLabel_one_eval]

/-- Claim C8: with a nonzero included total the logic charts the filtered
rows; each chart row's share satisfies `share * totalIncluded = users`
(i.e. `share = users / totalIncluded`) and its label is the share rendered
as a percentage string with one decimal place. -/
theorem chart_row_share_and_label (df : List Record)
    (programField usersField : String) (sel : List Key) (row : AggRow)
    (hP : programField ∈ columns df) (hU : usersField ∈ columns df)
    (hsel : sel ≠ []) (hT : total_included df programField usersField sel ≠ 0)
    (hrow : row ∈ agg_rows df programField usersField sel) :
    render_chart df programField usersField sel =
        AggOutcome.chart (agg_rows df programField usersField sel)
          (total_included df programField usersField sel) ∧
      row.percent * total_included df programField usersField sel = row.users ∧
      row.label = percentLabel row.percent := by
  refine ⟨?_, ?_⟩
  · rw [render_chart_branches df programField usersField sel hP hU hsel, if_neg hT]
  · rcases List.mem_map.mp hrow with ⟨b, _, rfl⟩
    exact ⟨div_mul_cancel₀ b.users hT, rfl⟩

/-- Witness for `chart_row_share_and_label`: filtering the spec's example
to `{"B"}` charts one row with `totalIncluded = 5`, share `1` and label
`"100.0%"`. -/
theorem chart_row_share_and_label_witness :
    ("P" ∈ columns specRecords ∧ "U" ∈ columns specRecords ∧
        ([some (Value.str "B")] : List Key) ≠ [] ∧
        total_included specRecords "P" "U" [some (Value.str "B")] = 5 ∧
        (⟨some (Value.str "B"), 5, 1, "100.0%"⟩ : AggRow) ∈
          agg_rows specRecords "P" "U" [some (Value.str "B")]) ∧
      (render_chart specRecords "P" "U" [some (Value.str "B")] =
          AggOutcome.chart (agg_rows specRecords "P" "U" [some (Value.str "B")])
            (total_included specRecords "P" "U" [some (Value.str "B")]) ∧
        (⟨some (Value.str "B"), 5, 1, "100.0%"⟩ : AggRow).percent *
            total_included specRecords "P" "U" [some (Value.str "B")] =
          (⟨some (Value.str "B"), 5, 1, "100.0%"⟩ : AggRow).users ∧
        (⟨some (Value.str "B"), 5, 1, "100.0%"⟩ : AggRow).label =
          percentLabel (⟨some (Value.str "B"), 5, 1, "100.0%"⟩ : AggRow).percent) :=
  ⟨⟨by decide, by decide, by decide, total_included_specB_eval,
    by rw [agg_rows_specB_eval]; exact List.mem_singleton.mpr rfl⟩,
   chart_row_share_and_label specRecords "P" "U" [some (Value.str "B")]
     ⟨some (Value.str "B"), 5, 1, "100.0%"⟩ (by decide) (by decide) (by decide)
     (by rw [total_included_specB_eval]; norm_num)
     (by rw [agg_rows_specB_eval]; exact List.mem_singleton.mpr rfl)⟩

/-! ## MissingField condition -/

/-- Claim C9 (amended): provided some record carries at least one field, a
non-empty RecordSet is warned about a missing field exactly when the
program or the users field is absent from every record; a field present on
one record but absent on others does not trigger the warning.  (When every
record is fieldless the empty-frame branch wins instead, see the
counterexample.) -/
theorem missing_field_iff_absent_from_all (df : List Record)
    (programField usersField : String) (sel : List Key)
    (hne : df ≠ []) (hcols : columns df ≠ []) :
    render_chart df programField usersField sel =
        AggOutcome.missingField (columns df) ↔
      (∀ r ∈ df, getField r programField = none) ∨
        (∀ r ∈ df, getField r usersField = none) := by
  unfold render_chart
  rw [if_neg (by simp [hne, hcols])]
  by_cases hm : programField ∉ columns df ∨ usersField ∉ columns df
  · rw [if_pos hm]
    constructor
    · intro _
      rcases hm with hm | hm
      · left
        intro r hr
        by_contra hgf
        exact hm ((mem_columns_iff df programField).mpr ⟨r, hr, hgf⟩)
      · right
        intro r hr
        by_contra hgf
        exact hm ((mem_columns_iff df usersField).mpr ⟨r, hr, hgf⟩)
    · intro _
      rfl
  · rw [if_neg hm]
    push_neg at hm
    constructor
    · intro h
      by_cases hs : sel = [] <;>
        by_cases ht : total_included df programField usersField sel = 0 <;>
        simp [hs, ht] at h
    · intro h
      exfalso
      rcases h with h | h
      · refine (?_ : programField ∉ columns df) hm.1
        rw [mem_columns_iff]
        push_neg
        exact h
      · refine (?_ : usersField ∉ columns df) hm.2
        rw [mem_columns_iff]
        push_neg
        exact h

/-- Claim C9, counterexample: one record with no fields at all is a
non-empty RecordSet from which both configured fields are absent, yet the
code takes the empty-frame branch (`df.empty` is true with zero columns)
and never reaches the missing-field warning — the claimed "if and only if"
fails on it. -/
theorem fieldless_record_skips_missing_field_warning :
    ([([] : Record)] : List Record) ≠ [] ∧
      getField ([] : Record) "Program Name" = none ∧
      getField ([] : Record) "Credible Users" = none ∧
      render_chart [([] : Record)] "Program Name" "Credible Users" [] =
        AggOutcome.emptyInfo :=
  ⟨by decide, rfl, rfl, rfl⟩

/-- Witness for `missing_field_iff_absent_from_all`: a record set whose
records carry only `"P"` triggers the warning for users field `"U"`. -/
theorem missing_field_iff_absent_from_all_witness :
    (onlyProgramRecords ≠ [] ∧ columns onlyProgramRecords ≠ []) ∧
      render_chart onlyProgramRecords "P" "U" [] =
        AggOutcome.missingField (columns onlyProgramRecords) :=
  ⟨⟨by decide, by decide⟩,
   (missing_field_iff_absent_from_all onlyProgramRecords "P" "U" []
       (by decide) (by decide)).mpr (Or.inr (by decide))⟩

/-! ## Shares sum to one -/

/-- Summing the pointwise quotients of a row list by a constant equals the
quotient of the sum. -/
theorem sum_map_users_div (l : List ChartRow) (c : ℚ) :
    (l.map (fun b => b.users / c)).sum = (l.map ChartRow.users).sum / c := by
  induction l with
  | nil => simp
  | cons b bs ih => simp [List.map_cons, List.sum_cons, add_div, ih]

/-- Claim C10: when the included total is nonzero the shares of the chart
rows sum to exactly 1 in exact rational arithmetic, each share being the
row's summed users divided by the included total. -/
theorem shares_sum_to_one (df : List Record) (programField usersField : String)
    (sel : List Key) (hT : total_included df programField usersField sel ≠ 0) :
    ((agg_rows df programField usersField sel).map AggRow.percent).sum = 1 := by
  unfold agg_rows
  rw [List.map_map]
  have hcomp :
      (AggRow.percent ∘ fun row : ChartRow =>
          (⟨row.program, row.users,
            row.users / total_included df programField usersField sel,
            percentLabel
              (row.users / total_included df programField usersField sel)⟩ :
              AggRow)) =
        fun b : ChartRow =>
          b.users / total_included df programField usersField sel := rfl
  rw [hcomp, sum_map_users_div]
  exact div_self hT

/-- The included total of the full selection of the spec's example is
`13 + 5 = 18`. -/
theorem total_included_specAB_eval :
    total_included specRecords "P" "U"
      [some (Value.str "A"), some (Value.str "B")] = 18 := by
  unfold total_included filtered_rows
  rw [chart_df_specRecords_eval]
  simp
  norm_num

/-- Witness for `shares_sum_to_one`: with both example categories selected
the included total is 18 ≠ 0 and the shares (13/18 and 5/18) sum to 1. -/
theorem shares_sum_to_one_witness :
    total_included specRecords "P" "U"
        [some (Value.str "A"), some (Value.str "B")] ≠ 0 ∧
      ((agg_rows specRecords "P" "U"
          [some (Value.str "A"), some (Value.str "B")]).map AggRow.percent).sum = 1 :=
  ⟨by rw [total_included_specAB_eval]; norm_num,
   shares_sum_to_one specRecords "P" "U"
     [some (Value.str "A"), some (Value.str "B")]
     (by rw [total_included_specAB_eval]; norm_num)⟩

end CredibleUsers
